import Mathlib

/-
Verification of the emotion-classifier core of the voice-note recorder
(`src/VoiceRecorder.tsx`).  The classifier is embedded shallowly over ℚ:
JavaScript floating-point arithmetic is modelled by exact rational
arithmetic, loops by folds, and the React refs `emotionSamplesRef` /
`detectedEmotion` by an explicit `ClassifierState` record threaded through
a per-tick transition function.
-/

/-- The emotion labels (`EmotionType` in `src/types/voice-note`):
the database constrains `emotion` to happy, neutral or sad. -/
inductive EmotionType
  | happy
  | sad
  | neutral
deriving DecidableEq

/-- One entry of `emotionSamplesRef` (line 28 / line 65 of
`VoiceRecorder.tsx`): `{ pitch, volume, variance }`. -/
structure EmotionSample where
  pitch : ℚ
  volume : ℚ
  variance : ℚ
deriving DecidableEq

/-- The classifier's mutable state: the rolling sample window
(`emotionSamplesRef.current`) and the last computed label
(`detectedEmotion`, `none` while unset). -/
structure ClassifierState where
  samples : List EmotionSample
  detectedEmotion : Option EmotionType
deriving DecidableEq

/-- Lines 43-46: `sum += timeDomainArray[i] * timeDomainArray[i]` over the
time-domain buffer. -/
def rmsSumSq (timeDomain : List ℚ) : ℚ :=
  timeDomain.foldl (fun sum x => sum + x * x) 0

/-- Line 47 without the final `Math.sqrt`: the squared RMS volume
`sum / timeDomainArray.length`.  The code's `volume` is the nonnegative
square root of this value; we carry the square because the root of a
rational is in general irrational.  Square roots are monotone and
`Real.sqrt` is applied at the theorem level where the claim mentions it. -/
def rmsVolumeSq (timeDomain : List ℚ) : ℚ :=
  rmsSumSq timeDomain / (timeDomain.length : ℚ)

/-- Lines 50-57: the scan for the dominant frequency bin, carrying
`(maxValue, maxIndex)` with initial values `(0, 0)` and updating only on a
strictly greater bin value (`dataArray[i] > maxValue`). -/
def scanBinsAux : List ℚ → ℚ → ℕ → ℕ → ℚ × ℕ
  | [], maxValue, maxIndex, _ => (maxValue, maxIndex)
  | x :: xs, maxValue, maxIndex, i =>
      if maxValue < x then scanBinsAux xs x i (i + 1)
      else scanBinsAux xs maxValue maxIndex (i + 1)

/-- The full scan of the spectrum starting from `maxValue = 0`,
`maxIndex = 0`, index 0. -/
def scanBins (spectrum : List ℚ) : ℚ × ℕ :=
  scanBinsAux spectrum 0 0 0

/-- Line 58: `pitch = maxIndex * sampleRate / (bufferLength * 2)`. -/
def pitchOf (spectrum : List ℚ) (sampleRate : ℚ) : ℚ :=
  ((scanBins spectrum).2 : ℚ) * sampleRate / ((spectrum.length : ℚ) * 2)

/-- JavaScript `Array.prototype.reduce((a, b) => a + b)` without an initial
value: throws a `TypeError` on an empty array (modelled by `none`),
otherwise folds the tail onto the head. -/
def reduceAdd : List ℚ → Option ℚ
  | [] => none
  | x :: xs => some (xs.foldl (fun a b => a + b) x)

/-- The feature triple extracted from one analysis frame.  `volumeSq` is
the square of the code's `volume` (see `rmsVolumeSq`). -/
structure RawFeatures where
  pitch : ℚ
  volumeSq : ℚ
  variance : ℚ
deriving DecidableEq

/-- Lines 42-62: feature extraction for one frame.  The only fallible step
is the mean `dataArray.reduce((a, b) => a + b)` (no initial value), which
throws on an empty spectrum — hence the `Option`. -/
def ingestFrame (spectrum timeDomain : List ℚ) (sampleRate : ℚ) :
    Option RawFeatures :=
  match reduceAdd spectrum with
  | none => none
  | some total =>
      let volumeSq := rmsVolumeSq timeDomain
      let pitch := pitchOf spectrum sampleRate
      let mean := total / (spectrum.length : ℚ)
      let variance :=
        (spectrum.foldl (fun sum val => sum + (val - mean) ^ 2) 0) /
          (spectrum.length : ℚ)
      some { pitch := pitch, volumeSq := volumeSq, variance := variance }

/-- Line 72: `samples.reduce((sum, s) => sum + s.pitch, 0) / samples.length`. -/
def avgPitch (samples : List EmotionSample) : ℚ :=
  (samples.foldl (fun sum s => sum + s.pitch) 0) / (samples.length : ℚ)

/-- Line 73: average volume over the window. -/
def avgVolume (samples : List EmotionSample) : ℚ :=
  (samples.foldl (fun sum s => sum + s.volume) 0) / (samples.length : ℚ)

/-- Line 74: average spectral variance over the window. -/
def avgVariance (samples : List EmotionSample) : ℚ :=
  (samples.foldl (fun sum s => sum + s.variance) 0) / (samples.length : ℚ)

/-- Line 84: `Math.min(Math.max((avgPitch - 150) / 200, 0), 1)`. -/
def pitchScoreOf (p : ℚ) : ℚ :=
  min (max ((p - 150) / 200) 0) 1

/-- Line 85: `Math.min(Math.max(avgVolume / 0.15, 0), 1)`. -/
def volumeScoreOf (v : ℚ) : ℚ :=
  min (max (v / 0.15) 0) 1

/-- Line 86: `Math.min(Math.max(avgVariance / 800, 0), 1)`. -/
def varianceScoreOf (va : ℚ) : ℚ :=
  min (max (va / 800) 0) 1

/-- Lines 89-93: the happy composite score with piecewise boosts and
weights 0.35 / 0.35 / 0.3, no clamping of sub-terms. -/
def happyScoreOf (pitchScore volumeScore varianceScore : ℚ) : ℚ :=
  (if pitchScore > 0.5 then 1 else pitchScore * 2) * 0.35 +
  (if volumeScore > 0.6 then 1 else volumeScore) * 0.35 +
  (if varianceScore > 0.4 then 1 else varianceScore * 1.5) * 0.3

/-- Lines 95-99: the sad composite score with piecewise boosts and
weights 0.35 / 0.4 / 0.25, no clamping of sub-terms. -/
def sadScoreOf (pitchScore volumeScore varianceScore : ℚ) : ℚ :=
  (if pitchScore < 0.4 then 1 else (1 - pitchScore) * 1.5) * 0.35 +
  (if volumeScore < 0.5 then 1 else (1 - volumeScore) * 1.2) * 0.4 +
  (if varianceScore < 0.35 then 1 else (1 - varianceScore) * 1.3) * 0.25

/-- Lines 102-112: the four-branch decision policy, in source order. -/
def decideEmotion (happyScore sadScore : ℚ) : EmotionType :=
  if happyScore > 0.45 ∧ happyScore > sadScore + 0.1 then EmotionType.happy
  else if sadScore > 0.45 ∧ sadScore > happyScore + 0.1 then EmotionType.sad
  else if |happyScore - sadScore| < 0.1 ∧ (happyScore > 0.3 ∨ sadScore > 0.3)
    then (if happyScore > sadScore then EmotionType.happy else EmotionType.sad)
  else EmotionType.neutral

/-- Lines 72-112: the classification computed from a window of samples. -/
def classifyWindow (samples : List EmotionSample) : EmotionType :=
  let pitchScore := pitchScoreOf (avgPitch samples)
  let volumeScore := volumeScoreOf (avgVolume samples)
  let varianceScore := varianceScoreOf (avgVariance samples)
  decideEmotion (happyScoreOf pitchScore volumeScore varianceScore)
    (sadScoreOf pitchScore volumeScore varianceScore)

/-- Lines 64-118 of `analyzeAudioEmotion`: push the new sample (line 65);
if the window now holds at least 10 samples (line 68), classify over the
post-push window (lines 72-112), store the label (line 114) and only then
truncate the window to its 100 most recent entries with `slice(-100)`
(lines 115-117); below 10 samples the label is left unchanged. -/
def ingestTick (st : ClassifierState) (s : EmotionSample) : ClassifierState :=
  let samples := st.samples ++ [s]
  if 10 ≤ samples.length then
    let emotion := classifyWindow samples
    let samples2 :=
      if 100 < samples.length then samples.drop (samples.length - 100)
      else samples
    { samples := samples2, detectedEmotion := some emotion }
  else
    { samples := samples, detectedEmotion := st.detectedEmotion }

/-- The fresh classifier state: `emotionSamplesRef.current = []` (line 142)
and `setDetectedEmotion(null)` (line 217).  Also the result of `reset()`. -/
def initState : ClassifierState :=
  { samples := [], detectedEmotion := none }

/-- Running the analysis tick over a list of incoming frames in order. -/
def runTicks (st : ClassifierState) (frames : List EmotionSample) :
    ClassifierState :=
  frames.foldl ingestTick st

/-- The label the classifier currently exposes (the `detectedEmotion`
React state), `none` while unset. -/
def currentLabel (st : ClassifierState) : Option EmotionType :=
  st.detectedEmotion

/-- The persisted note metadata relevant to the claims (lines 176-186):
the emotion tag and the duration in whole seconds. -/
structure NoteRecord where
  emotion : EmotionType
  duration : ℕ
deriving DecidableEq

/-- Lines 148-186 (`mediaRecorder.onstop`): the persisted emotion is
`detectedEmotion ?? 'neutral'` (line 150) and the duration is
`recordingTime` (line 183).  Crucially, the handler is a closure created
inside `startRecording`, so both values are the React state snapshots
captured from the render in which recording started — not the live values
at the moment recording stops (no ref mirrors these two states). -/
def stopSession (capturedDetectedEmotion : Option EmotionType)
    (capturedRecordingTime : ℕ) : NoteRecord :=
  { emotion := capturedDetectedEmotion.getD EmotionType.neutral,
    duration := capturedRecordingTime }

/-- The recording-session lifecycle of `startRecording`/`stopRecording`:
at session start the classifier window is reset (line 142) and the
`onstop` closure is created, capturing the render's `detectedEmotion` and
`recordingTime`, which at that moment are `none` and `0` (the initial
values of lines 18-19, re-established by the previous session's cleanup
at lines 216-217); the 200 ms loop then ingests the session's frames;
stopping fires `onstop`, which persists the note from the stale captured
values (lines 150 and 183), not from the final classifier state.  Returns
the persisted note together with the final classifier state. -/
def runSession (frames : List EmotionSample) : NoteRecord × ClassifierState :=
  let capturedDetectedEmotion : Option EmotionType := none
  let capturedRecordingTime : ℕ := 0
  let finalState := runTicks initState frames
  (stopSession capturedDetectedEmotion capturedRecordingTime, finalState)

/-- The recorder state surrounding the classifier: the waveform bars
(line 20) plus the classifier state. -/
structure RecorderState where
  waveformData : List ℚ
  classifier : ClassifierState

/-- Lines 122-126: each waveform bar is replaced by
`Math.random() * 0.7 + 0.3`; the random draws for one tick are passed in
explicitly as a list. -/
def updateWaveform (randoms : List ℚ) (waveform : List ℚ) : List ℚ :=
  (waveform.zip randoms).map (fun p => p.2 * 0.7 + 0.3)

/-- Lines 230-233: one 200 ms timer tick runs `updateWaveform()` followed
by `analyzeAudioEmotion()`. -/
def recorderTick (randoms : List ℚ) (st : RecorderState) (s : EmotionSample) :
    RecorderState :=
  { waveformData := updateWaveform randoms st.waveformData,
    classifier := ingestTick st.classifier s }

/-- The recorder state at the start of a session (line 20: twenty bars at
0.3; fresh classifier). -/
def initRecorder : RecorderState :=
  { waveformData := List.replicate 20 0.3, classifier := initState }

/-- Running the recorder loop: tick `k` consumes the random draws
`randomSource k` for the waveform and the next incoming frame for the
classifier. -/
def runRecorder (randomSource : ℕ → List ℚ) :
    ℕ → RecorderState → List EmotionSample → RecorderState
  | _, st, [] => st
  | k, st, s :: rest =>
      runRecorder randomSource (k + 1) (recorderTick (randomSource k) st s) rest

/-- The all-zero feature sample produced by a fully silent frame
(pitch 0, volume 0, variance 0). -/
def zeroSample : EmotionSample :=
  { pitch := 0, volume := 0, variance := 0 }

/-- Clamping as written in the spec: `clamp(x, lo, hi)`. -/
def specClamp (x lo hi : ℚ) : ℚ :=
  min (max x lo) hi

/-- Arithmetic mean as written in the spec: `sum / length`. -/
def specMean (xs : List ℚ) : ℚ :=
  xs.sum / (xs.length : ℚ)

/-- Spec formula: `pitchScore = clamp((avgPitch - 150) / 200, 0, 1)` with
`avgPitch` the arithmetic mean of the window's pitches. -/
def specPitchScore (w : List EmotionSample) : ℚ :=
  specClamp ((specMean (w.map EmotionSample.pitch) - 150) / 200) 0 1

/-- Spec formula: `loudnessScore = clamp(avgLoudness / 0.15, 0, 1)`. -/
def specLoudnessScore (w : List EmotionSample) : ℚ :=
  specClamp (specMean (w.map EmotionSample.volume) / 0.15) 0 1

/-- Spec formula: `varianceScore = clamp(avgVariance / 800, 0, 1)`. -/
def specVarianceScore (w : List EmotionSample) : ℚ :=
  specClamp (specMean (w.map EmotionSample.variance) / 800) 0 1

/-- Spec formula: `happyScore = 0.35 * (pitchScore > 0.5 ? 1 : pitchScore*2)
+ 0.35 * (loudnessScore > 0.6 ? 1 : loudnessScore)
+ 0.30 * (varianceScore > 0.4 ? 1 : varianceScore*1.5)`. -/
def specHappyScore (w : List EmotionSample) : ℚ :=
  0.35 * (if specPitchScore w > 0.5 then 1 else specPitchScore w * 2) +
  0.35 * (if specLoudnessScore w > 0.6 then 1 else specLoudnessScore w) +
  0.30 * (if specVarianceScore w > 0.4 then 1 else specVarianceScore w * 1.5)

/-- Spec formula: `sadScore = 0.35 * (pitchScore < 0.4 ? 1 : (1-pitchScore)*1.5)
+ 0.40 * (loudnessScore < 0.5 ? 1 : (1-loudnessScore)*1.2)
+ 0.25 * (varianceScore < 0.35 ? 1 : (1-varianceScore)*1.3)`. -/
def specSadScore (w : List EmotionSample) : ℚ :=
  0.35 * (if specPitchScore w < 0.4 then 1 else (1 - specPitchScore w) * 1.5) +
  0.40 * (if specLoudnessScore w < 0.5 then 1 else (1 - specLoudnessScore w) * 1.2) +
  0.25 * (if specVarianceScore w < 0.35 then 1 else (1 - specVarianceScore w) * 1.3)

/-- The spec's four-branch decision policy in its stated priority order:
happy if `happyScore > 0.45` and `happyScore > sadScore + 0.1`; else sad
symmetrically; else, on near-tied scores with at least one above 0.3, the
larger of the two (happy exactly when `happyScore > sadScore`); else
neutral. -/
def specLabel (w : List EmotionSample) : EmotionType :=
  if specHappyScore w > 0.45 ∧ specHappyScore w > specSadScore w + 0.1 then
    EmotionType.happy
  else if specSadScore w > 0.45 ∧ specSadScore w > specHappyScore w + 0.1 then
    EmotionType.sad
  else if |specHappyScore w - specSadScore w| < 0.1 ∧
      (specHappyScore w > 0.3 ∨ specSadScore w > 0.3) then
    (if specHappyScore w > specSadScore w then EmotionType.happy
     else EmotionType.sad)
  else EmotionType.neutral

/-- The suffix of the `n` most recent entries of a list (`slice(-n)`). -/
def lastN (n : ℕ) (l : List EmotionSample) : List EmotionSample :=
  l.drop (l.length - n)

/-- The one large-input sample used to exhibit the pre-eviction
aggregation: averaged together with 100 silent frames it yields exactly
`avgPitch = 350`, `avgVolume = 0.15`, `avgVariance = 800`. -/
def bigSample : EmotionSample :=
  { pitch := 35350, volume := 303 / 20, variance := 80800 }

lemma foldl_add_eq {α : Type} (f : α → ℚ) :
    ∀ (l : List α) (a : ℚ),
      l.foldl (fun sum x => sum + f x) a = a + (l.map f).sum
  | [], a => by simp
  | x :: xs, a => by
      rw [List.foldl_cons, foldl_add_eq f xs (a + f x), List.map_cons,
        List.sum_cons]
      ring

lemma avgPitch_eq (w : List EmotionSample) :
    avgPitch w = specMean (w.map EmotionSample.pitch) := by
  unfold avgPitch specMean
  rw [foldl_add_eq EmotionSample.pitch, zero_add, List.length_map]

lemma avgVolume_eq (w : List EmotionSample) :
    avgVolume w = specMean (w.map EmotionSample.volume) := by
  unfold avgVolume specMean
  rw [foldl_add_eq EmotionSample.volume, zero_add, List.length_map]

lemma avgVariance_eq (w : List EmotionSample) :
    avgVariance w = specMean (w.map EmotionSample.variance) := by
  unfold avgVariance specMean
  rw [foldl_add_eq EmotionSample.variance, zero_add, List.length_map]

lemma pitchScore_eq (w : List EmotionSample) :
    pitchScoreOf (avgPitch w) = specPitchScore w := by
  rw [avgPitch_eq]; rfl

lemma volumeScore_eq (w : List EmotionSample) :
    volumeScoreOf (avgVolume w) = specLoudnessScore w := by
  rw [avgVolume_eq]; rfl

lemma varianceScore_eq (w : List EmotionSample) :
    varianceScoreOf (avgVariance w) = specVarianceScore w := by
  rw [avgVariance_eq]; rfl

lemma happyScore_eq (w : List EmotionSample) :
    happyScoreOf (pitchScoreOf (avgPitch w)) (volumeScoreOf (avgVolume w))
      (varianceScoreOf (avgVariance w)) = specHappyScore w := by
  rw [pitchScore_eq, volumeScore_eq, varianceScore_eq]
  unfold happyScoreOf specHappyScore
  split_ifs <;> ring

lemma sadScore_eq (w : List EmotionSample) :
    sadScoreOf (pitchScoreOf (avgPitch w)) (volumeScoreOf (avgVolume w))
      (varianceScoreOf (avgVariance w)) = specSadScore w := by
  rw [pitchScore_eq, volumeScore_eq, varianceScore_eq]
  unfold sadScoreOf specSadScore
  split_ifs <;> ring

lemma classifyWindow_eq_specLabel (w : List EmotionSample) :
    classifyWindow w = specLabel w := by
  simp only [classifyWindow]
  rw [happyScore_eq, sadScore_eq]
  unfold decideEmotion specLabel
  rfl

lemma ingestTick_ge10 (st : ClassifierState) (s : EmotionSample)
    (h : 10 ≤ (st.samples ++ [s]).length) :
    (ingestTick st s).detectedEmotion =
      some (classifyWindow (st.samples ++ [s])) := by
  simp only [ingestTick]
  rw [if_pos h]

lemma ingestTick_lt10 (st : ClassifierState) (s : EmotionSample)
    (h : st.samples.length + 1 < 10) :
    ingestTick st s =
      { samples := st.samples ++ [s], detectedEmotion := st.detectedEmotion } := by
  simp only [ingestTick]
  rw [if_neg]
  rw [List.length_append, List.length_singleton]
  omega

lemma ingestTick_samples (st : ClassifierState) (s : EmotionSample) :
    (ingestTick st s).samples = lastN 100 (st.samples ++ [s]) := by
  simp only [ingestTick, lastN]
  split_ifs with h1 h2
  · rfl
  · rw [Nat.sub_eq_zero_of_le (by omega), List.drop_zero]
  · rw [Nat.sub_eq_zero_of_le (by omega), List.drop_zero]

lemma lastN_of_le {l : List EmotionSample} {n : ℕ} (h : l.length ≤ n) :
    lastN n l = l := by
  unfold lastN
  rw [Nat.sub_eq_zero_of_le h, List.drop_zero]

lemma lastN_length (n : ℕ) (l : List EmotionSample) :
    (lastN n l).length = l.length - (l.length - n) := by
  unfold lastN
  rw [List.length_drop]

lemma lastN_append_lastN (n : ℕ) (a b : List EmotionSample) :
    lastN n (lastN n a ++ b) = lastN n (a ++ b) := by
  by_cases h : a.length ≤ n
  · rw [lastN_of_le h]
  · unfold lastN
    rw [← List.drop_append_of_le_length (by omega : a.length - n ≤ a.length),
      List.drop_drop]
    congr 1
    simp only [List.length_append, List.length_drop]
    omega

lemma runTicks_samples :
    ∀ (frames : List EmotionSample) (st : ClassifierState),
      st.samples.length ≤ 100 →
      (runTicks st frames).samples = lastN 100 (st.samples ++ frames)
  | [], st, h => by
      simp only [runTicks, List.foldl_nil, List.append_nil]
      rw [lastN_of_le h]
  | s :: rest, st, h => by
      simp only [runTicks, List.foldl_cons]
      have h2 : (ingestTick st s).samples.length ≤ 100 := by
        rw [ingestTick_samples, lastN_length]; omega
      have := runTicks_samples rest (ingestTick st s) h2
      simp only [runTicks] at this
      rw [this, ingestTick_samples, lastN_append_lastN, List.append_assoc,
        List.singleton_append]

/-- C1: once the post-push window holds at least 10 samples, the tick
computes the three arithmetic means over the whole window, normalizes them
with `clamp((avgPitch-150)/200, 0, 1)`, `clamp(avgLoudness/0.15, 0, 1)`
and `clamp(avgVariance/800, 0, 1)`, forms the weighted composite scores
(weights 0.35/0.35/0.30 and 0.35/0.40/0.25) with unclamped piecewise
boosts, and stores the label chosen by the spec's four-branch decision
policy in its exact priority order. -/
theorem claim1 (st : ClassifierState) (s : EmotionSample)
    (h : 10 ≤ (st.samples ++ [s]).length) :
    (ingestTick st s).detectedEmotion = some (specLabel (st.samples ++ [s])) := by
  rw [ingestTick_ge10 st s h, classifyWindow_eq_specLabel]

/-- Witness for C1 at a concrete ten-sample window. -/
theorem claim1_witness :
    10 ≤ ((List.replicate 9 zeroSample) ++ [zeroSample]).length ∧
    (ingestTick { samples := List.replicate 9 zeroSample, detectedEmotion := none }
        zeroSample).detectedEmotion =
      some (specLabel ((List.replicate 9 zeroSample) ++ [zeroSample])) :=
  ⟨by simp, claim1 { samples := List.replicate 9 zeroSample, detectedEmotion := none }
    zeroSample (by simp)⟩

lemma runTicks_below_min :
    ∀ (frames : List EmotionSample) (st : ClassifierState),
      st.detectedEmotion = none → st.samples.length + frames.length < 10 →
      (runTicks st frames).detectedEmotion = none
  | [], st, hd, _ => by simpa [runTicks] using hd
  | s :: rest, st, hd, hl => by
      simp only [runTicks, List.foldl_cons]
      have hlt : st.samples.length + 1 < 10 := by
        simp only [List.length_cons] at hl; omega
      have := runTicks_below_min rest (ingestTick st s)
        (by rw [ingestTick_lt10 st s hlt]; exact hd)
        (by rw [ingestTick_lt10 st s hlt]
            simp at hl ⊢
            omega)
      simpa [runTicks] using this

/-- C3: while the post-push window holds fewer than 10 samples a tick
leaves the exposed label untouched, whatever the frame values; and from a
fresh (reset) state, fewer than 10 ingested frames leave the label unset. -/
theorem claim3 :
    (∀ (st : ClassifierState) (s : EmotionSample),
      st.samples.length + 1 < 10 →
      (ingestTick st s).detectedEmotion = st.detectedEmotion) ∧
    (∀ frames : List EmotionSample, frames.length < 10 →
      currentLabel (runTicks initState frames) = none) := by
  constructor
  · intro st s h
    rw [ingestTick_lt10 st s h]
  · intro frames h
    exact runTicks_below_min frames initState rfl (by simp [initState]; omega)

/-- Witness for C3: one below-threshold tick on a populated state keeps
the previous label, and nine fresh frames leave the label unset. -/
theorem claim3_witness :
    ({ samples := List.replicate 3 zeroSample,
        detectedEmotion := some EmotionType.happy } : ClassifierState).samples.length + 1 < 10 ∧
    (ingestTick
        { samples := List.replicate 3 zeroSample,
          detectedEmotion := some EmotionType.happy }
        bigSample).detectedEmotion = some EmotionType.happy ∧
    (List.replicate 9 bigSample).length < 10 ∧
    currentLabel (runTicks initState (List.replicate 9 bigSample)) = none :=
  ⟨by simp, claim3.1 _ bigSample (by simp), by simp,
    claim3.2 (List.replicate 9 bigSample) (by simp)⟩

/-- C4: the window after any run from a fresh state is exactly the suffix
of the 100 most recently ingested frames in arrival order (FIFO eviction),
its length never exceeds 100, and once more than 100 frames have been
ingested it is exactly 100 after every tick. -/
theorem claim4 :
    (∀ frames : List EmotionSample,
      (runTicks initState frames).samples = frames.drop (frames.length - 100)) ∧
    (∀ frames : List EmotionSample,
      (runTicks initState frames).samples.length ≤ 100) ∧
    (∀ frames : List EmotionSample, 100 < frames.length →
      (runTicks initState frames).samples.length = 100) := by
  have key : ∀ frames : List EmotionSample,
      (runTicks initState frames).samples = lastN 100 frames := by
    intro frames
    have := runTicks_samples frames initState (by simp [initState])
    simpa [initState] using this
  refine ⟨fun frames => key frames, fun frames => ?_, fun frames h => ?_⟩
  · rw [key, lastN_length]; omega
  · rw [key, lastN_length]; omega

/-- Witness for C4 at a concrete run of 101 frames. -/
theorem claim4_witness :
    100 < (List.replicate 101 zeroSample).length ∧
    (runTicks initState (List.replicate 101 zeroSample)).samples =
      (List.replicate 101 zeroSample).drop
        ((List.replicate 101 zeroSample).length - 100) ∧
    (runTicks initState (List.replicate 101 zeroSample)).samples.length = 100 :=
  ⟨by simp, claim4.1 (List.replicate 101 zeroSample),
    claim4.2.2 (List.replicate 101 zeroSample) (by simp)⟩

lemma clamp01_bounds (x : ℚ) : 0 ≤ min (max x 0) 1 ∧ min (max x 0) 1 ≤ 1 :=
  ⟨le_min (le_max_right x 0) zero_le_one, min_le_right _ _⟩

lemma happyScore_bounds {p v va : ℚ}
    (hp : 0 ≤ p ∧ p ≤ 1) (hv : 0 ≤ v ∧ v ≤ 1) (hva : 0 ≤ va ∧ va ≤ 1) :
    0 ≤ happyScoreOf p v va ∧ happyScoreOf p v va ≤ 1 := by
  obtain ⟨hp0, hp1⟩ := hp
  obtain ⟨hv0, hv1⟩ := hv
  obtain ⟨hva0, hva1⟩ := hva
  unfold happyScoreOf
  split_ifs <;> constructor <;> linarith

lemma sadScore_bounds {p v va : ℚ}
    (hp : 0 ≤ p ∧ p ≤ 1) (hv : 0 ≤ v ∧ v ≤ 1) (hva : 0 ≤ va ∧ va ≤ 1) :
    0 ≤ sadScoreOf p v va ∧ sadScoreOf p v va ≤ 1 := by
  obtain ⟨hp0, hp1⟩ := hp
  obtain ⟨hv0, hv1⟩ := hv
  obtain ⟨hva0, hva1⟩ := hva
  unfold sadScoreOf
  split_ifs <;> constructor <;> linarith

/-- C7: for any eligible window the composite scores stay inside [0, 1]:
the three feature scores are clamped to [0, 1] before the piecewise
boosts, every boosted sub-term stays at most 1, and the weights sum to 1,
so neither composite exceeds 1 despite the absence of explicit clamping. -/
theorem claim7 (samples : List EmotionSample) (h : 10 ≤ samples.length) :
    (0 ≤ happyScoreOf (pitchScoreOf (avgPitch samples))
        (volumeScoreOf (avgVolume samples))
        (varianceScoreOf (avgVariance samples)) ∧
      happyScoreOf (pitchScoreOf (avgPitch samples))
        (volumeScoreOf (avgVolume samples))
        (varianceScoreOf (avgVariance samples)) ≤ 1) ∧
    (0 ≤ sadScoreOf (pitchScoreOf (avgPitch samples))
        (volumeScoreOf (avgVolume samples))
        (varianceScoreOf (avgVariance samples)) ∧
      sadScoreOf (pitchScoreOf (avgPitch samples))
        (volumeScoreOf (avgVolume samples))
        (varianceScoreOf (avgVariance samples)) ≤ 1) := by
  have hp := clamp01_bounds ((avgPitch samples - 150) / 200)
  have hv := clamp01_bounds (avgVolume samples / 0.15)
  have hva := clamp01_bounds (avgVariance samples / 800)
  exact ⟨happyScore_bounds hp hv hva, sadScore_bounds hp hv hva⟩

/-- Witness for C7 at a concrete ten-sample window. -/
theorem claim7_witness :
    10 ≤ (List.replicate 10 bigSample).length ∧
    (0 ≤ happyScoreOf (pitchScoreOf (avgPitch (List.replicate 10 bigSample)))
        (volumeScoreOf (avgVolume (List.replicate 10 bigSample)))
        (varianceScoreOf (avgVariance (List.replicate 10 bigSample))) ∧
      happyScoreOf (pitchScoreOf (avgPitch (List.replicate 10 bigSample)))
        (volumeScoreOf (avgVolume (List.replicate 10 bigSample)))
        (varianceScoreOf (avgVariance (List.replicate 10 bigSample))) ≤ 1) ∧
    (0 ≤ sadScoreOf (pitchScoreOf (avgPitch (List.replicate 10 bigSample)))
        (volumeScoreOf (avgVolume (List.replicate 10 bigSample)))
        (varianceScoreOf (avgVariance (List.replicate 10 bigSample))) ∧
      sadScoreOf (pitchScoreOf (avgPitch (List.replicate 10 bigSample)))
        (volumeScoreOf (avgVolume (List.replicate 10 bigSample)))
        (varianceScoreOf (avgVariance (List.replicate 10 bigSample))) ≤ 1) :=
  ⟨by simp, claim7 (List.replicate 10 bigSample) (by simp)⟩

lemma runRecorder_classifier (randomSource : ℕ → List ℚ) :
    ∀ (frames : List EmotionSample) (k : ℕ) (st : RecorderState),
      (runRecorder randomSource k st frames).classifier =
        runTicks st.classifier frames
  | [], k, st => by simp [runRecorder, runTicks]
  | s :: rest, k, st => by
      simp only [runRecorder, runTicks, List.foldl_cons]
      exact runRecorder_classifier randomSource rest (k + 1)
        (recorderTick (randomSource k) st s)

/-- C8: the label after feeding the same 10 frames to two fresh recorder
instances is the same whatever random draws feed the waveform
visualization: the classification path is a deterministic function of the
ingested frames and the waveform randomness never leaks into it. -/
theorem claim8 (rand1 rand2 : ℕ → List ℚ) (frames : List EmotionSample)
    (h : frames.length = 10) :
    currentLabel (runRecorder rand1 0 initRecorder frames).classifier =
      currentLabel (runRecorder rand2 0 initRecorder frames).classifier := by
  rw [runRecorder_classifier rand1 frames 0 initRecorder,
    runRecorder_classifier rand2 frames 0 initRecorder]

/-- Witness for C8 with two different concrete random sources. -/
theorem claim8_witness :
    (List.replicate 10 bigSample).length = 10 ∧
    currentLabel (runRecorder (fun _ => List.replicate 20 (1 / 2)) 0
        initRecorder (List.replicate 10 bigSample)).classifier =
      currentLabel (runRecorder (fun k => List.replicate 20 ((k : ℚ) / 7)) 0
        initRecorder (List.replicate 10 bigSample)).classifier :=
  ⟨by simp, claim8 (fun _ => List.replicate 20 (1 / 2))
    (fun k => List.replicate 20 ((k : ℚ) / 7))
    (List.replicate 10 bigSample) (by simp)⟩

set_option maxRecDepth 100000 in
/-- C10: the claim is right about the intent but the code contradicts it:
the `onstop` closure persists the `detectedEmotion` and `recordingTime`
captured when recording started (always unset and 0), so every session
persists emotion "neutral" and duration 0 — even a session whose final
classifier state holds the label "happy", where `currentLabel` last
returned happy.  The persisted emotion is therefore not determined by the
final classifier state. -/
theorem claim10 :
    (∀ frames : List EmotionSample,
      (runSession frames).1.emotion = EmotionType.neutral ∧
      (runSession frames).1.duration = 0) ∧
    currentLabel (runSession (List.replicate 10 bigSample)).2 =
      some EmotionType.happy ∧
    EmotionType.neutral ≠ EmotionType.happy := by
  refine ⟨fun frames => ⟨rfl, rfl⟩, ?_, ?_⟩
  · with_unfolding_all decide
  · with_unfolding_all decide

lemma scanBinsAux_spec :
    ∀ (xs : List ℚ) (mv : ℚ) (mi i : ℕ),
      mv ≤ (scanBinsAux xs mv mi i).1 ∧
      (∀ x ∈ xs, x ≤ (scanBinsAux xs mv mi i).1) ∧
      (scanBinsAux xs mv mi i = (mv, mi) ∨
        ∃ j, j < xs.length ∧
          (scanBinsAux xs mv mi i).1 = xs.getD j 0 ∧
          (scanBinsAux xs mv mi i).2 = i + j ∧
          mv < (scanBinsAux xs mv mi i).1 ∧
          ∀ k, k < j → xs.getD k 0 < (scanBinsAux xs mv mi i).1)
  | [], mv, mi, i => by
      refine ⟨le_refl mv, ?_, Or.inl rfl⟩
      intro x hx
      exact absurd hx (List.not_mem_nil x)
  | x :: xs, mv, mi, i => by
      rw [scanBinsAux]
      split_ifs with hx
      · obtain ⟨ih1, ih2, ih3⟩ := scanBinsAux_spec xs x i (i + 1)
        refine ⟨le_of_lt (lt_of_lt_of_le hx ih1), ?_, ?_⟩
        · intro y hy
          rcases List.mem_cons.mp hy with hy | hy
          · exact hy ▸ ih1
          · exact ih2 y hy
        · right
          rcases ih3 with heq | ⟨j, hj, e1, e2, e3, e4⟩
          · refine ⟨0, by simp, ?_, ?_, ?_, ?_⟩
            · rw [heq]; rfl
            · rw [heq]; simp
            · rw [heq]; exact hx
            · intro k hk; omega
          · refine ⟨j + 1, by simp; omega, ?_, ?_, ?_, ?_⟩
            · rw [e1, List.getD_cons_succ]
            · rw [e2]; omega
            · exact lt_trans hx e3
            · intro k hk
              match k with
              | 0 => rw [List.getD_cons_zero]; exact e3
              | k' + 1 =>
                  rw [List.getD_cons_succ]
                  exact e4 k' (by omega)
      · obtain ⟨ih1, ih2, ih3⟩ := scanBinsAux_spec xs mv mi (i + 1)
        refine ⟨ih1, ?_, ?_⟩
        · intro y hy
          rcases List.mem_cons.mp hy with hy | hy
          · exact hy ▸ le_trans (not_lt.mp hx) ih1
          · exact ih2 y hy
        · rcases ih3 with heq | ⟨j, hj, e1, e2, e3, e4⟩
          · exact Or.inl heq
          · right
            refine ⟨j + 1, by simp; omega, ?_, ?_, e3, ?_⟩
            · rw [e1, List.getD_cons_succ]
            · rw [e2]; omega
            · intro k hk
              match k with
              | 0 => rw [List.getD_cons_zero]; exact lt_of_le_of_lt (not_lt.mp hx) e3
              | k' + 1 =>
                  rw [List.getD_cons_succ]
                  exact e4 k' (by omega)

lemma scanBins_spec (l : List ℚ) (hne : l ≠ []) (hnn : ∀ x ∈ l, 0 ≤ x) :
    (scanBins l).2 < l.length ∧
    l.getD (scanBins l).2 0 = (scanBins l).1 ∧
    (∀ j, j < l.length → l.getD j 0 ≤ (scanBins l).1) ∧
    (∀ k, k < (scanBins l).2 → l.getD k 0 < (scanBins l).1) := by
  obtain ⟨_, h2, h3⟩ := scanBinsAux_spec l 0 0 0
  have hpos : 0 < l.length := List.length_pos.mpr hne
  have hub : ∀ j, j < l.length → l.getD j 0 ≤ (scanBinsAux l 0 0 0).1 := by
    intro j hj
    rw [List.getD_eq_getElem l 0 hj]
    exact h2 _ (List.getElem_mem hj)
  simp only [scanBins]
  rcases h3 with heq | ⟨j, hj, e1, e2, e3, e4⟩
  · refine ⟨?_, ?_, hub, ?_⟩
    · rw [heq]; exact hpos
    · have hle := hub 0 hpos
      have hge : 0 ≤ l.getD 0 0 := by
        rw [List.getD_eq_getElem l 0 hpos]
        exact hnn _ (List.getElem_mem hpos)
      rw [heq] at hle ⊢
      exact le_antisymm hle hge
    · intro k hk
      rw [heq] at hk
      simp at hk
  · refine ⟨?_, ?_, hub, ?_⟩
    · rw [e2]; omega
    · rw [e2, Nat.zero_add, e1]
    · intro k hk
      rw [e2, Nat.zero_add] at hk
      exact e4 k hk

/-- C2: for a non-empty spectrum of non-negative bin energies, frame
ingestion succeeds and produces (i) a loudness whose square is the mean of
the squared time-domain samples, so the loudness is
`sqrt(mean(x_i^2))`; (ii) a pitch equal to
`maxIndex * sampleRate / (N * 2)` where `maxIndex` is an in-range index
attaining the maximum bin value with every earlier bin strictly smaller
(ties broken by the lowest index in an ascending scan); and (iii) a
spectral variance equal to the population variance of the spectrum values
around their arithmetic mean. -/
theorem claim2 (spectrum timeDomain : List ℚ) (sampleRate : ℚ)
    (hne : spectrum ≠ []) (hnn : ∀ x ∈ spectrum, 0 ≤ x) :
    ∃ f : RawFeatures,
      ingestFrame spectrum timeDomain sampleRate = some f ∧
      f.volumeSq =
        (timeDomain.map (fun x => x ^ 2)).sum / (timeDomain.length : ℚ) ∧
      Real.sqrt (f.volumeSq : ℝ) =
        Real.sqrt
          (((timeDomain.map (fun x => x ^ 2)).sum / (timeDomain.length : ℚ) : ℚ) : ℝ) ∧
      f.pitch =
        ((scanBins spectrum).2 : ℚ) * sampleRate / ((spectrum.length : ℚ) * 2) ∧
      (scanBins spectrum).2 < spectrum.length ∧
      spectrum.getD (scanBins spectrum).2 0 = (scanBins spectrum).1 ∧
      (∀ j, j < spectrum.length →
        spectrum.getD j 0 ≤ (scanBins spectrum).1) ∧
      (∀ k, k < (scanBins spectrum).2 →
        spectrum.getD k 0 < (scanBins spectrum).1) ∧
      f.variance =
        (spectrum.map (fun s => (s - specMean spectrum) ^ 2)).sum /
          (spectrum.length : ℚ) := by
  obtain ⟨x, xs, rfl⟩ := List.exists_cons_of_ne_nil hne
  obtain ⟨hb1, hb2, hb3, hb4⟩ := scanBins_spec (x :: xs) hne hnn
  have hvol : rmsVolumeSq timeDomain =
      (timeDomain.map (fun x => x ^ 2)).sum / (timeDomain.length : ℚ) := by
    unfold rmsVolumeSq rmsSumSq
    rw [foldl_add_eq (fun x => x * x) timeDomain 0, zero_add]
    have hfun : (fun x : ℚ => x * x) = fun x : ℚ => x ^ 2 := by
      funext y
      ring
    rw [hfun]
  have htotal : (xs.foldl (fun a b => a + b) x) = (x :: xs).sum := by
    rw [foldl_add_eq (fun b => b) xs x, List.sum_cons]
    simp
  refine ⟨{ pitch := pitchOf (x :: xs) sampleRate,
            volumeSq := rmsVolumeSq timeDomain,
            variance := ((x :: xs).foldl
              (fun sum val => sum + (val - specMean (x :: xs)) ^ 2) 0) /
              (((x :: xs).length : ℚ)) },
    ?_, hvol, ?_, rfl, hb1, hb2, hb3, hb4, ?_⟩
  · simp only [ingestFrame, reduceAdd, htotal]
    rfl
  · have := congrArg (fun q : ℚ => Real.sqrt (q : ℝ)) hvol
    simpa using this
  · have hvar : ((x :: xs).foldl
        (fun sum val => sum + (val - specMean (x :: xs)) ^ 2) 0) /
          (((x :: xs).length : ℚ)) =
        ((x :: xs).map (fun s => (s - specMean (x :: xs)) ^ 2)).sum /
          (((x :: xs).length : ℚ)) := by
      rw [foldl_add_eq (fun val => (val - specMean (x :: xs)) ^ 2) (x :: xs) 0,
        zero_add]
    exact hvar

/-- Witness for C2 at a concrete frame. -/
theorem claim2_witness :
    ([2, 5, 5] : List ℚ) ≠ [] ∧ (∀ x ∈ ([2, 5, 5] : List ℚ), 0 ≤ x) ∧
    (∃ f : RawFeatures,
      ingestFrame [2, 5, 5] [1/2, 1/2] 44100 = some f ∧
      f.volumeSq =
        (([1/2, 1/2] : List ℚ).map (fun x => x ^ 2)).sum /
          (([1/2, 1/2] : List ℚ).length : ℚ) ∧
      Real.sqrt (f.volumeSq : ℝ) =
        Real.sqrt
          (((([1/2, 1/2] : List ℚ).map (fun x => x ^ 2)).sum /
            (([1/2, 1/2] : List ℚ).length : ℚ) : ℚ) : ℝ) ∧
      f.pitch =
        ((scanBins [2, 5, 5]).2 : ℚ) * 44100 /
          ((([2, 5, 5] : List ℚ).length : ℚ) * 2) ∧
      (scanBins [2, 5, 5]).2 < ([2, 5, 5] : List ℚ).length ∧
      ([2, 5, 5] : List ℚ).getD (scanBins [2, 5, 5]).2 0 = (scanBins [2, 5, 5]).1 ∧
      (∀ j, j < ([2, 5, 5] : List ℚ).length →
        ([2, 5, 5] : List ℚ).getD j 0 ≤ (scanBins [2, 5, 5]).1) ∧
      (∀ k, k < (scanBins [2, 5, 5]).2 →
        ([2, 5, 5] : List ℚ).getD k 0 < (scanBins [2, 5, 5]).1) ∧
      f.variance =
        (([2, 5, 5] : List ℚ).map (fun s => (s - specMean [2, 5, 5]) ^ 2)).sum /
          (([2, 5, 5] : List ℚ).length : ℚ)) :=
  ⟨by simp, by intro x hx; fin_cases hx <;> norm_num,
    claim2 [2, 5, 5] [1/2, 1/2] 44100 (by simp)
      (by intro x hx; fin_cases hx <;> norm_num)⟩

lemma foldl_fix_replicate_zero (f : ℚ → ℚ → ℚ) (hf : ∀ s, f s 0 = s) :
    ∀ (m : ℕ) (a : ℚ), (List.replicate m (0 : ℚ)).foldl f a = a
  | 0, a => by simp
  | m + 1, a => by
      rw [List.replicate_succ, List.foldl_cons, hf a]
      exact foldl_fix_replicate_zero f hf m a

lemma scanBinsAux_replicate_zero :
    ∀ (m : ℕ) (mi i : ℕ),
      scanBinsAux (List.replicate m (0 : ℚ)) 0 mi i = (0, mi)
  | 0, mi, i => by rw [List.replicate_zero, scanBinsAux]
  | m + 1, mi, i => by
      rw [List.replicate_succ, scanBinsAux, if_neg (lt_irrefl (0 : ℚ))]
      exact scanBinsAux_replicate_zero m mi (i + 1)

/-- C9: frame ingestion has no error conditions on non-empty buffers, and
an all-zero spectrum with an all-zero time-domain signal yields the zero
feature triple (pitch 0, loudness 0 — the square root of a zero squared
RMS — and variance 0) rather than an error. -/
theorem claim9 :
    (∀ (spectrum timeDomain : List ℚ) (sampleRate : ℚ), spectrum ≠ [] →
      ∃ f : RawFeatures, ingestFrame spectrum timeDomain sampleRate = some f) ∧
    (∀ (n : ℕ) (sampleRate : ℚ), 1 ≤ n →
      ingestFrame (List.replicate n (0 : ℚ)) (List.replicate n (0 : ℚ))
          sampleRate =
        some { pitch := 0, volumeSq := 0, variance := 0 }) := by
  constructor
  · intro spectrum timeDomain sampleRate hne
    obtain ⟨x, xs, rfl⟩ := List.exists_cons_of_ne_nil hne
    exact ⟨_, rfl⟩
  · intro n sampleRate hn
    obtain ⟨m, rfl⟩ : ∃ m, n = m + 1 := ⟨n - 1, by omega⟩
    have hred : reduceAdd (List.replicate (m + 1) (0 : ℚ)) = some 0 := by
      rw [List.replicate_succ, reduceAdd]
      rw [foldl_fix_replicate_zero (fun a b => a + b) (by intro s; ring) m 0]
    have hscan : scanBins (List.replicate (m + 1) (0 : ℚ)) = (0, 0) := by
      rw [scanBins, List.replicate_succ, scanBinsAux,
        if_neg (lt_irrefl (0 : ℚ))]
      exact scanBinsAux_replicate_zero m 0 (0 + 1)
    simp only [ingestFrame, hred]
    have hp : pitchOf (List.replicate (m + 1) (0 : ℚ)) sampleRate = 0 := by
      unfold pitchOf
      rw [hscan]
      simp
    have hv : rmsVolumeSq (List.replicate (m + 1) (0 : ℚ)) = 0 := by
      unfold rmsVolumeSq rmsSumSq
      rw [foldl_fix_replicate_zero (fun sum x => sum + x * x)
        (by intro s; ring) (m + 1) 0]
      simp
    have hvar : ((List.replicate (m + 1) (0 : ℚ)).foldl
        (fun sum val =>
          sum + (val - (0 : ℚ) / ((List.replicate (m + 1) (0 : ℚ)).length : ℚ)) ^ 2)
        0) / ((List.replicate (m + 1) (0 : ℚ)).length : ℚ) = 0 := by
      rw [foldl_fix_replicate_zero _ (by intro s; simp) (m + 1) 0]
      simp
    rw [hp, hv]
    rw [hvar]

/-- Witness for C9 at concrete frames. -/
theorem claim9_witness :
    ([0, 3] : List ℚ) ≠ [] ∧
    (∃ f : RawFeatures, ingestFrame [0, 3] [1] 48000 = some f) ∧
    (1 : ℕ) ≤ 4 ∧
    ingestFrame (List.replicate 4 (0 : ℚ)) (List.replicate 4 (0 : ℚ)) 48000 =
      some { pitch := 0, volumeSq := 0, variance := 0 } :=
  ⟨by simp, claim9.1 [0, 3] [1] 48000 (by simp), by omega,
    claim9.2 4 48000 (by omega)⟩

lemma avgPitch_replicate_zero (n : ℕ) :
    avgPitch (List.replicate n zeroSample) = 0 := by
  rw [avgPitch_eq]
  unfold specMean
  rw [List.map_replicate]
  simp [zeroSample]

lemma avgVolume_replicate_zero (n : ℕ) :
    avgVolume (List.replicate n zeroSample) = 0 := by
  rw [avgVolume_eq]
  unfold specMean
  rw [List.map_replicate]
  simp [zeroSample]

lemma avgVariance_replicate_zero (n : ℕ) :
    avgVariance (List.replicate n zeroSample) = 0 := by
  rw [avgVariance_eq]
  unfold specMean
  rw [List.map_replicate]
  simp [zeroSample]

lemma classify_replicate_zero (n : ℕ) :
    classifyWindow (List.replicate n zeroSample) = EmotionType.sad := by
  simp only [classifyWindow]
  rw [avgPitch_replicate_zero, avgVolume_replicate_zero,
    avgVariance_replicate_zero]
  with_unfolding_all decide

lemma runTicks_replicate_zero_label (n : ℕ) :
    (runTicks initState (List.replicate n zeroSample)).detectedEmotion =
      if 10 ≤ n then some EmotionType.sad else none := by
  induction n with
  | zero => simp [runTicks, initState]
  | succ n ih =>
      rw [List.replicate_succ' n zeroSample]
      have hsam : (runTicks initState (List.replicate n zeroSample)).samples =
          List.replicate (min n 100) zeroSample := by
        rw [runTicks_samples (List.replicate n zeroSample) initState
          (by simp [initState])]
        simp only [initState, List.nil_append, lastN]
        rw [List.length_replicate, List.drop_replicate]
        congr 1
        omega
      have hstep :
          runTicks initState (List.replicate n zeroSample ++ [zeroSample]) =
          ingestTick (runTicks initState (List.replicate n zeroSample))
            zeroSample := by
        unfold runTicks
        rw [List.foldl_append, List.foldl_cons, List.foldl_nil]
      rw [hstep]
      by_cases h9 : 10 ≤ n + 1
      · rw [if_pos h9]
        have hlen : 10 ≤
            ((runTicks initState (List.replicate n zeroSample)).samples ++
              [zeroSample]).length := by
          rw [hsam, List.length_append, List.length_replicate]
          simp
          omega
        rw [ingestTick_ge10 _ _ hlen, hsam, ← List.replicate_succ']
        rw [classify_replicate_zero]
      · rw [if_neg h9]
        have hlt :
            (runTicks initState (List.replicate n zeroSample)).samples.length + 1
              < 10 := by
          rw [hsam, List.length_replicate]
          omega
        rw [ingestTick_lt10 _ _ hlt]
        rw [ih, if_neg (by omega)]

set_option maxRecDepth 100000 in
/-- C5 counterexample: an all-silent ten-frame session is classified
"sad", not "neutral" — the zero feature scores drive every sad sub-term
into its boost branch, giving sadScore = 1 > 0.45. -/
theorem claim5_counterexample :
    currentLabel (runTicks initState (List.replicate 10 zeroSample)) =
      some EmotionType.sad ∧
    some EmotionType.sad ≠ some EmotionType.neutral := by
  with_unfolding_all decide

/-- C5 as amended: an all-silent session of at least 10 frames yields
feature scores pitchScore = loudnessScore = varianceScore = 0, whence
happyScore = 0 and sadScore = 0.35 + 0.40 + 0.25 = 1, and the session
resolves to "sad" (sadScore exceeds its 0.45 threshold and the 0.1
margin). -/
theorem claim5_amended (n : ℕ) (h : 10 ≤ n) :
    pitchScoreOf (avgPitch (List.replicate n zeroSample)) = 0 ∧
    volumeScoreOf (avgVolume (List.replicate n zeroSample)) = 0 ∧
    varianceScoreOf (avgVariance (List.replicate n zeroSample)) = 0 ∧
    happyScoreOf 0 0 0 = 0 ∧
    sadScoreOf 0 0 0 = 1 ∧
    currentLabel (runTicks initState (List.replicate n zeroSample)) =
      some EmotionType.sad := by
  refine ⟨?_, ?_, ?_, ?_, ?_, ?_⟩
  · rw [avgPitch_replicate_zero]
    with_unfolding_all decide
  · rw [avgVolume_replicate_zero]
    with_unfolding_all decide
  · rw [avgVariance_replicate_zero]
    with_unfolding_all decide
  · with_unfolding_all decide
  · with_unfolding_all decide
  · unfold currentLabel
    rw [runTicks_replicate_zero_label n, if_pos h]

/-- Witness for the amended C5 at a concrete ten-frame silent session. -/
theorem claim5_amended_witness :
    (10 : ℕ) ≤ 10 ∧
    currentLabel (runTicks initState (List.replicate 10 zeroSample)) =
      some EmotionType.sad :=
  ⟨by omega, (claim5_amended 10 (by omega)).2.2.2.2.2⟩

set_option maxRecDepth 1000000 in
/-- C6 counterexample: in a 101-frame session whose first frame is loud,
high-pitched and high-variance and whose remaining 100 frames are silent,
the label stored at the 101st tick is "happy" — the tick aggregates all
101 samples, eviction happening only afterwards — while aggregating the
100 most recent frames (all silent) would give "sad". -/
theorem claim6_counterexample :
    (runTicks initState
        (bigSample :: List.replicate 100 zeroSample)).detectedEmotion =
      some EmotionType.happy ∧
    (bigSample :: List.replicate 100 zeroSample).length = 101 ∧
    (bigSample :: List.replicate 100 zeroSample).drop 1 =
      List.replicate 100 zeroSample ∧
    specLabel (List.replicate 100 zeroSample) = EmotionType.sad ∧
    EmotionType.happy ≠ EmotionType.sad := by
  with_unfolding_all decide

/-- C6 as amended: classification happens on the post-push, pre-eviction
window — eviction to 100 runs after the label is computed in the same
tick.  Hence a tick may aggregate up to 101 samples; in particular the
tick at which the 101st frame arrives aggregates all 101 frames, and the
window is back to at most 100 entries once the tick completes. -/
theorem claim6_amended :
    (∀ (st : ClassifierState) (s : EmotionSample),
      10 ≤ (st.samples ++ [s]).length →
      (ingestTick st s).detectedEmotion =
        some (classifyWindow (st.samples ++ [s]))) ∧
    (∀ (st : ClassifierState) (s : EmotionSample), st.samples.length ≤ 100 →
      (st.samples ++ [s]).length ≤ 101 ∧
      (ingestTick st s).samples.length ≤ 100) ∧
    (∀ frames : List EmotionSample, frames.length = 101 →
      (runTicks initState frames).detectedEmotion =
        some (classifyWindow frames) ∧
      (runTicks initState frames).samples.length = 100) := by
  refine ⟨fun st s h => ingestTick_ge10 st s h, fun st s h => ?_,
    fun frames h => ?_⟩
  · constructor
    · rw [List.length_append]
      simp
      omega
    · rw [ingestTick_samples, lastN_length]
      omega
  · have hne : frames ≠ [] := by
      intro hcon
      rw [hcon] at h
      simp at h
    have hsplit : frames.dropLast ++ [frames.getLast hne] = frames :=
      List.dropLast_append_getLast hne
    have hlen : frames.dropLast.length = 100 := by
      rw [List.length_dropLast, h]
    have hinner :
        (runTicks initState frames.dropLast).samples = frames.dropLast := by
      rw [runTicks_samples frames.dropLast initState (by simp [initState])]
      simp only [initState, List.nil_append]
      exact lastN_of_le (by omega)
    have hstep : runTicks initState frames =
        ingestTick (runTicks initState frames.dropLast)
          (frames.getLast hne) := by
      conv_lhs => rw [← hsplit]
      unfold runTicks
      rw [List.foldl_append, List.foldl_cons, List.foldl_nil]
    constructor
    · rw [hstep,
        ingestTick_ge10 _ _
          (by rw [hinner, List.length_append, hlen]; simp),
        hinner, hsplit]
    · rw [hstep, ingestTick_samples, lastN_length, hinner,
        List.length_append, hlen]
      simp

/-- Witness for the amended C6 at a concrete 101-frame session. -/
theorem claim6_amended_witness :
    (bigSample :: List.replicate 100 zeroSample).length = 101 ∧
    (runTicks initState
        (bigSample :: List.replicate 100 zeroSample)).detectedEmotion =
      some (classifyWindow (bigSample :: List.replicate 100 zeroSample)) ∧
    (runTicks initState
        (bigSample :: List.replicate 100 zeroSample)).samples.length = 100 :=
  ⟨by simp,
    (claim6_amended.2.2 (bigSample :: List.replicate 100 zeroSample)
      (by simp)).1,
    (claim6_amended.2.2 (bigSample :: List.replicate 100 zeroSample)
      (by simp)).2⟩
